import Mathlib

/-!
Shallow embedding of the deferred-response composer of the
hydrogen-third-party-api example repository.

The embedded code is the route module `app/routes/characters.$id.tsx`
(its `loader` and the `Character` / `Locations` / `EpisodesGrid` /
`NoEpisodes` components) together with the homepage loader that fetches
the characters listing with a short cache.

An asynchronous computation (a JavaScript promise together with the
network call behind it) is modelled by the instant (in milliseconds from
the start of request handling) at which it settles and its outcome
(fulfilled value or rejection).
-/

namespace HydrogenThirdParty

/-- Failure produced by the Rick and Morty query gateway: the client throws
when the upstream transport returns a non-success status. -/
inductive QueryError where
  | upstreamFetchFailure (statusText : String)
  deriving DecidableEq, Repr

deriving instance DecidableEq for Except

/-- A promise, modelled by its settle time (ms) and its outcome. -/
structure Async (α : Type) where
  time : Nat
  result : Except QueryError α
  deriving DecidableEq, Repr

/-- Modelled from the spec: the `p-min-delay` wrapper (library code, not under
the repository source). Per the spec it is a minimum-latency floor: the wrapped
promise settles at the later of the floor instant and the underlying promise's
own settle time, with the underlying outcome unchanged (the default also delays
rejections). -/
def pMinDelay {α : Type} (p : Async α) (floor : Nat) : Async α :=
  ⟨max p.time floor, p.result⟩

/-- `Promise.all` over two promises: fulfills with the pair once both have
fulfilled (at the later settle time), rejects with the first rejection. -/
def promiseAll2 {α β : Type} (p : Async α) (q : Async β) : Async (α × β) :=
  match p.result, q.result with
  | Except.ok a, Except.ok b => ⟨max p.time q.time, Except.ok (a, b)⟩
  | Except.error e, Except.ok _ => ⟨p.time, Except.error e⟩
  | Except.ok _, Except.error e => ⟨q.time, Except.error e⟩
  | Except.error e, Except.error f =>
      if p.time ≤ q.time then ⟨p.time, Except.error e⟩
      else ⟨q.time, Except.error f⟩

/-- An object holding only a `name` field (`origin` and `location` of a
character). -/
structure NamedEntity where
  name : String
  deriving DecidableEq, Repr

/-- A resident of a location (name and image). -/
structure Resident where
  name : String
  image : String
  deriving DecidableEq, Repr

/-- A location as selected by `CHARACTER_LOCATIONS_QUERY`. -/
structure Location where
  name : String
  residents : List Resident
  deriving DecidableEq, Repr

/-- A character appearing in an episode (name, image, status). -/
structure EpisodeCharacter where
  name : String
  image : String
  status : String
  deriving DecidableEq, Repr

/-- An episode as selected by `DEFERRED_CHARACTER_EPISODES_QUERY`. -/
structure Episode where
  name : String
  air_date : String
  id : String
  characters : List EpisodeCharacter
  deriving DecidableEq, Repr

/-- A character as selected by `CHARACTER_QUERY`. -/
structure Character where
  name : String
  id : String
  gender : String
  image : String
  type : String
  species : String
  origin : NamedEntity
  location : NamedEntity
  deriving DecidableEq, Repr

/-- Payload of the locations query: `data.locations` is `{results: Location[]}`. -/
structure LocationsData where
  results : List Location
  deriving DecidableEq, Repr

/-- The `character` object of the deferred episodes payload; its `episode`
list may be absent (null). -/
structure EpisodesCharacter where
  episode : Option (List Episode)
  deriving DecidableEq, Repr

/-- The deferred episodes payload: `data.character` may be null (for example
for a nonexistent character id). -/
structure EpisodesData where
  character : Option EpisodesCharacter
  deriving DecidableEq, Repr

/-- Cache option passed to `context.rickAndMorty.query`: `CacheNone()`,
`CacheShort()` or `CacheLong()`. -/
inductive CachePolicy where
  | CacheNone
  | CacheShort
  | CacheLong
  deriving DecidableEq, Repr

/-- The query documents appearing in the embedded routes. -/
inductive QueryDoc where
  | characterQuery
  | locationsQuery
  | deferredEpisodesQuery
  | charactersQuery
  deriving DecidableEq, Repr

/-- The `variables` object of a query call: either empty, or carrying the
route's `id` parameter (which may itself be absent, since `params.id` is
passed through unvalidated). -/
inductive QueryVars where
  | empty
  | withId (id : Option String)
  deriving DecidableEq, Repr

/-- Whether the variables of a call carry a request-specific identifier. -/
def QueryVars.requestSpecific : QueryVars → Bool
  | QueryVars.empty => false
  | QueryVars.withId _ => true

/-- One network call issued through the query gateway: document, variables
and cache policy. -/
structure QueryCall where
  doc : QueryDoc
  vars : QueryVars
  cache : CachePolicy
  deriving DecidableEq, Repr

/-- The Rick and Morty gateway as seen by one `loader` invocation: the
response promise behind each of the three queries the route issues. -/
structure Gateway where
  characterResponse : Async (Option Character)
  locationsResponse : Async LocationsData
  episodesResponse : Async (Option EpisodesData)
  deriving DecidableEq, Repr

/-- The loader's inputs: the route parameter `params.id` (possibly absent)
and the gateway from the request context. -/
structure LoaderArgs where
  id : Option String
  gateway : Gateway
  deriving DecidableEq, Repr

/-- The object handed to `defer`: the critical character and locations data
plus the still-unsettled episodes promise. -/
structure LoaderData where
  character : Option Character
  locations : LocationsData
  episodesPromise : Async (Option EpisodesData)
  deriving DecidableEq, Repr

/-- The deferred episodes promise built first in the loader:
`pMinDelay(context.rickAndMorty.query(DEFERRED_CHARACTER_EPISODES_QUERY, ...), 2000)`. -/
def episodesHandle (args : LoaderArgs) : Async (Option EpisodesData) :=
  pMinDelay args.gateway.episodesResponse 2000

/-- The fan-out/fan-in join of the two critical fetches:
`Promise.all([characterPromise, locationsPromise])`. -/
def criticalJoin (args : LoaderArgs) : Async (Option Character × LocationsData) :=
  promiseAll2 args.gateway.characterResponse args.gateway.locationsResponse

/-- The route loader of `app/routes/characters.$id.tsx`: builds the delayed
episodes promise without awaiting it, awaits the joined critical fetches, and
returns `defer(\x7bcharacter, locations, episodesPromise\x7d)`. Its settle
time is the join's settle time; the episodes promise is embedded unawaited. -/
def loader (args : LoaderArgs) : Async LoaderData :=
  { time := (criticalJoin args).time
  , result := (criticalJoin args).result.map
      (fun cl => ⟨cl.1, cl.2, episodesHandle args⟩) }

/-- The network calls issued by the loader, in source order, each with the
variables and cache policy it passes: episodes and character are keyed by
`params.id` with `CacheNone()`, locations has empty variables and
`CacheNone()`. -/
def loaderCalls (args : LoaderArgs) : List QueryCall :=
  [ ⟨QueryDoc.deferredEpisodesQuery, QueryVars.withId args.id, CachePolicy.CacheNone⟩
  , ⟨QueryDoc.characterQuery, QueryVars.withId args.id, CachePolicy.CacheNone⟩
  , ⟨QueryDoc.locationsQuery, QueryVars.empty, CachePolicy.CacheNone⟩ ]

/-- The single network call issued by the homepage loader (`_index.tsx`):
`CHARACTERS_QUERY` with no variables and `CacheShort()`. -/
def homepageLoaderCalls : List QueryCall :=
  [⟨QueryDoc.charactersQuery, QueryVars.empty, CachePolicy.CacheShort⟩]

/-- The state of a deferred handle as observed at instant `t`: still pending
before the promise settles, afterwards resolved or failed according to its
outcome. Resolution is terminal: past `time` the state never changes. -/
inductive HandleState (α : Type) where
  | pending
  | resolved (value : α)
  | failed (e : QueryError)
  deriving DecidableEq, Repr

/-- Observe a promise at instant `t`. -/
def observe {α : Type} (p : Async α) (t : Nat) : HandleState α :=
  if t < p.time then HandleState.pending
  else
    match p.result with
    | Except.ok a => HandleState.resolved a
    | Except.error e => HandleState.failed e

/-- The inert placeholder episode of `EpisodesGrid` (`id` empty marks it as a
placeholder; its three character slots are empty objects). -/
def placeholderEpisode : Episode :=
  ⟨"Loading...", "", "", [⟨"", "", ""⟩, ⟨"", "", ""⟩, ⟨"", "", ""⟩]⟩

/-- The list of episode nodes rendered by `EpisodesGrid`: with an absent or
empty `episodes` prop (`!episodes?.length`) it renders four placeholder
entries, otherwise the given episodes; either way sliced to the first four
(`episodeNodes.slice(0, 4)`). -/
def episodesGrid (episodes : Option (List Episode)) : List Episode :=
  let episodeNodes :=
    match episodes with
    | none => List.replicate 4 placeholderEpisode
    | some es => if es.length = 0 then List.replicate 4 placeholderEpisode else es
  episodeNodes.take 4

/-- What the episodes section of the page shows. -/
inductive EpisodesView where
  | grid (nodes : List Episode)
  | noEpisodes
  | errorMessage
  deriving DecidableEq, Repr

/-- The optional-chaining access `data?.character?.episode` of the Await
callback. -/
def deferredEpisodes (data : Option EpisodesData) : Option (List Episode) :=
  (data.bind EpisodesData.character).bind EpisodesCharacter.episode

/-- The episodes section of the `Character` component: the Suspense fallback
`<EpisodesGrid />` while the handle is pending, the `errorElement` on
rejection, and on resolution `NoEpisodes` when `data?.character?.episode` is
absent, otherwise `<EpisodesGrid episodes=... />`. Note a present but empty
episode list is truthy in JavaScript, so it reaches `EpisodesGrid`. -/
def renderEpisodesSection (h : HandleState (Option EpisodesData)) : EpisodesView :=
  match h with
  | HandleState.pending => EpisodesView.grid (episodesGrid none)
  | HandleState.failed _ => EpisodesView.errorMessage
  | HandleState.resolved data =>
      match deferredEpisodes data with
      | none => EpisodesView.noEpisodes
      | some eps => EpisodesView.grid (episodesGrid (some eps))

/-- The locations shown by the `Locations` component: `locations.slice(0, 6)`
(one name paragraph per kept entry). -/
def renderLocations (locations : List Location) : List Location :=
  locations.take 6

/-- A concrete character for witnesses (the end-to-end example of the spec). -/
def sampleCharacter : Character :=
  ⟨"Morty Smith", "2", "Male", "img", "", "Human", ⟨"Earth C-137"⟩, ⟨"Citadel of Ricks"⟩⟩

/-- A concrete episode whose name and id are the given string. -/
def sampleEpisode (n : String) : Episode :=
  ⟨n, "2013-12-02", n, []⟩

/-- A concrete location whose name is the given string. -/
def sampleLocation (n : String) : Location :=
  ⟨n, []⟩

/-- A gateway whose three responses all fulfill quickly. -/
def okGateway : Gateway :=
  ⟨⟨5, Except.ok (some sampleCharacter)⟩
  , ⟨7, Except.ok ⟨[sampleLocation "Earth"]⟩⟩
  , ⟨9, Except.ok (some ⟨some ⟨some [sampleEpisode "Pilot"]⟩⟩)⟩⟩

/-- Arguments where both critical fetches are slower (5000 ms) than the
floored deferred fetch (settled at 2000 ms). -/
def slowCriticalArgs : LoaderArgs :=
  ⟨some "1"
  , ⟨⟨5000, Except.ok (some sampleCharacter)⟩
    , ⟨5000, Except.ok ⟨[]⟩⟩
    , ⟨1, Except.ok none⟩⟩⟩

/-- Arguments for a nonexistent character id: the character query fulfills
with a null character. -/
def nullCharacterArgs : LoaderArgs :=
  ⟨some "999999"
  , ⟨⟨100, Except.ok none⟩
    , ⟨100, Except.ok ⟨[]⟩⟩
    , ⟨100, Except.ok (some ⟨none⟩)⟩⟩⟩

/-- A resolved deferred payload whose episode list is present but empty. -/
def emptyEpisodesData : Option EpisodesData :=
  some ⟨some ⟨some []⟩⟩

theorem promiseAll2_ok {α β : Type} {p : Async α} {q : Async β} {a : α} {b : β}
    (hp : p.result = Except.ok a) (hq : q.result = Except.ok b) :
    promiseAll2 p q = ⟨max p.time q.time, Except.ok (a, b)⟩ := by
  simp [promiseAll2, hp, hq]

theorem promiseAll2_time_congr {α β : Type} {p p' : Async α} {q q' : Async β}
    (hp : p = p') (hq : q = q') :
    (promiseAll2 p q).time = (promiseAll2 p' q').time := by
  rw [hp, hq]

theorem promiseAll2_error {α β : Type} {p : Async α} {q : Async β}
    (h : (∃ e, p.result = Except.error e) ∨ (∃ e, q.result = Except.error e)) :
    ∃ f, (promiseAll2 p q).result = Except.error f := by
  unfold promiseAll2
  rcases hp : p.result with e | a <;> rcases hq : q.result with f | b
  · by_cases hle : p.time ≤ q.time <;> simp [hle]
  · exact ⟨e, rfl⟩
  · exact ⟨f, rfl⟩
  · rcases h with ⟨e, he⟩ | ⟨e, he⟩
    · rw [hp] at he; exact absurd he (by simp)
    · rw [hq] at he; exact absurd he (by simp)

/-- Arguments whose deferred episodes fetch settles slower than the 2000 ms
floor, at 3000 ms. -/
def slowEpisodesArgs : LoaderArgs :=
  ⟨some "2"
  , ⟨okGateway.characterResponse, okGateway.locationsResponse
    , ⟨3000, Except.ok none⟩⟩⟩

/-- C1: the wrapped deferred fetch resolves at the maximum of the 2000 ms
floor and the fetch's own settle time — a fetch faster than the floor is
padded to resolve exactly when the floor elapses, a fetch slower than the
floor resolves at its own settle time with no added latency, and the outcome
is passed through unchanged. -/
theorem c1_minimumLatencyFloor (args : LoaderArgs) :
    (args.gateway.episodesResponse.time < 2000 →
      (episodesHandle args).time = 2000) ∧
    (2000 ≤ args.gateway.episodesResponse.time →
      (episodesHandle args).time = args.gateway.episodesResponse.time) ∧
    (episodesHandle args).result = args.gateway.episodesResponse.result := by
  refine ⟨fun h => ?_, fun h => ?_, rfl⟩
  · simp [episodesHandle, pMinDelay]
    omega
  · simp [episodesHandle, pMinDelay]
    omega

theorem c1_minimumLatencyFloor_witness :
    (episodesHandle ⟨some "2", okGateway⟩).time = 2000 ∧
    (episodesHandle slowEpisodesArgs).time = 3000 := by
  constructor
  · exact (c1_minimumLatencyFloor ⟨some "2", okGateway⟩).1 (by decide)
  · have h := (c1_minimumLatencyFloor slowEpisodesArgs).2.1 (by decide)
    simpa using h

/-- Arguments identical to `slowCriticalArgs` except for an arbitrarily slow,
failing deferred fetch: used to exhibit independence of the critical path. -/
def slowDeferredVariantArgs : LoaderArgs :=
  ⟨some "1"
  , ⟨slowCriticalArgs.gateway.characterResponse
    , slowCriticalArgs.gateway.locationsResponse
    , ⟨999999, Except.error (QueryError.upstreamFetchFailure "timeout")⟩⟩⟩

/-- C2 counterexample: with both critical fetches settling at 5000 ms and the
deferred fetch settling at 1 ms (floored to 2000 ms), the loader returns at
5000 ms, an instant at which the deferred handle is no longer pending — so the
handle is not always still pending when handed to the renderer. -/
theorem c2_counterexample :
    (loader slowCriticalArgs).time = 5000 ∧
    (episodesHandle slowCriticalArgs).time = 2000 ∧
    observe (episodesHandle slowCriticalArgs) (loader slowCriticalArgs).time ≠
      HandleState.pending := by decide

/-- C2 (amended): the loader's settle time depends only on the two critical
fetches — it is unchanged under any change of the deferred fetch — and the
handle is still pending at the loader's settle time whenever the floored
deferred fetch settles later than the critical join. -/
theorem c2_criticalIndependence (args args' : LoaderArgs)
    (hc : args.gateway.characterResponse = args'.gateway.characterResponse)
    (hl : args.gateway.locationsResponse = args'.gateway.locationsResponse) :
    (loader args).time = (loader args').time ∧
    ((loader args).time < (episodesHandle args).time →
      observe (episodesHandle args) (loader args).time = HandleState.pending) := by
  constructor
  · simpa [loader, criticalJoin] using promiseAll2_time_congr hc hl
  · intro h
    simp [observe, h]

theorem c2_criticalIndependence_witness :
    (loader slowCriticalArgs).time = (loader slowDeferredVariantArgs).time ∧
    observe (episodesHandle ⟨some "2", okGateway⟩) (loader ⟨some "2", okGateway⟩).time =
      HandleState.pending := by
  constructor
  · exact (c2_criticalIndependence slowCriticalArgs slowDeferredVariantArgs rfl rfl).1
  · exact (c2_criticalIndependence ⟨some "2", okGateway⟩ ⟨some "2", okGateway⟩ rfl rfl).2
      (by decide)

/-- Arguments whose character fetch rejects while the locations fetch
fulfills. -/
def failingCriticalArgs : LoaderArgs :=
  ⟨some "2"
  , ⟨⟨50, Except.error (QueryError.upstreamFetchFailure "500")⟩
    , ⟨7, Except.ok ⟨[]⟩⟩
    , ⟨9, Except.ok none⟩⟩⟩

/-- C3: the two critical fetches are joined fan-out/fan-in — when both
fulfill, the loader settles exactly at the later of their settle times with
the combined payload; when either rejects, the whole loader call fails and no
partial result is produced. -/
theorem c3_fanOutFanIn (args : LoaderArgs) :
    (∀ c l, args.gateway.characterResponse.result = Except.ok c →
        args.gateway.locationsResponse.result = Except.ok l →
        (loader args).time =
            max args.gateway.characterResponse.time args.gateway.locationsResponse.time ∧
        (loader args).result = Except.ok ⟨c, l, episodesHandle args⟩) ∧
    (((∃ e, args.gateway.characterResponse.result = Except.error e) ∨
      (∃ e, args.gateway.locationsResponse.result = Except.error e)) →
      ∃ f, (loader args).result = Except.error f) := by
  constructor
  · intro c l hc hl
    simp [loader, criticalJoin, promiseAll2_ok hc hl, Except.map]
  · intro h
    obtain ⟨f, hf⟩ := promiseAll2_error (p := args.gateway.characterResponse)
      (q := args.gateway.locationsResponse) h
    exact ⟨f, by simp [loader, criticalJoin, hf, Except.map]⟩

theorem c3_fanOutFanIn_witness :
    (loader ⟨some "2", okGateway⟩).time = 7 ∧
    (loader ⟨some "2", okGateway⟩).result =
      Except.ok ⟨some sampleCharacter, ⟨[sampleLocation "Earth"]⟩
        , episodesHandle ⟨some "2", okGateway⟩⟩ ∧
    (∃ f, (loader failingCriticalArgs).result = Except.error f) := by
  obtain ⟨h1, h2⟩ := (c3_fanOutFanIn ⟨some "2", okGateway⟩).1
    (some sampleCharacter) ⟨[sampleLocation "Earth"]⟩ rfl rfl
  refine ⟨by simpa using h1, h2, ?_⟩
  exact (c3_fanOutFanIn failingCriticalArgs).2
    (Or.inl ⟨QueryError.upstreamFetchFailure "500", rfl⟩)



/-- Arguments whose deferred episodes fetch rejects while both critical
fetches fulfill. -/
def failingDeferredArgs : LoaderArgs :=
  ⟨some "2"
  , ⟨⟨5, Except.ok (some sampleCharacter)⟩
    , ⟨7, Except.ok ⟨[]⟩⟩
    , ⟨30, Except.error (QueryError.upstreamFetchFailure "502")⟩⟩⟩

/-- C4: a rejected deferred fetch never fails the loader — the critical
result is still returned intact; before the handle settles the renderer still
shows the placeholder grid, and only once the handle settles does the failure
surface, as the distinct error element rather than a crash of the delivered
critical response. -/
theorem c4_deferredFailureIsolated (args : LoaderArgs) (e : QueryError)
    (he : args.gateway.episodesResponse.result = Except.error e)
    (c : Option Character) (l : LocationsData)
    (hc : args.gateway.characterResponse.result = Except.ok c)
    (hl : args.gateway.locationsResponse.result = Except.ok l) :
    (loader args).result = Except.ok ⟨c, l, episodesHandle args⟩ ∧
    (∀ t, t < (episodesHandle args).time →
      renderEpisodesSection (observe (episodesHandle args) t) =
        EpisodesView.grid (episodesGrid none)) ∧
    (∀ t, (episodesHandle args).time ≤ t →
      renderEpisodesSection (observe (episodesHandle args) t) =
        EpisodesView.errorMessage) := by
  refine ⟨?_, fun t ht => ?_, fun t ht => ?_⟩
  · simp [loader, criticalJoin, promiseAll2_ok hc hl, Except.map]
  · simp [observe, ht, renderEpisodesSection]
  · have hres : (episodesHandle args).result = Except.error e := he
    have hnot : ¬ t < (episodesHandle args).time := by omega
    unfold observe
    rw [if_neg hnot, hres]
    rfl

theorem c4_deferredFailureIsolated_witness :
    (loader failingDeferredArgs).result =
      Except.ok ⟨some sampleCharacter, ⟨[]⟩, episodesHandle failingDeferredArgs⟩ ∧
    renderEpisodesSection (observe (episodesHandle failingDeferredArgs) 100) =
      EpisodesView.grid (episodesGrid none) ∧
    renderEpisodesSection (observe (episodesHandle failingDeferredArgs) 2000) =
      EpisodesView.errorMessage := by
  obtain ⟨h1, h2, h3⟩ := c4_deferredFailureIsolated failingDeferredArgs
    (QueryError.upstreamFetchFailure "502") rfl (some sampleCharacter) ⟨[]⟩ rfl rfl
  exact ⟨h1, h2 100 (by decide), h3 2000 (by decide)⟩

/-- C5 counterexample: a deferred payload whose episode list is present but
empty is truthy for the `data?.character?.episode` check, so the renderer
does not show the no-data state — it falls through to `EpisodesGrid`, which
renders the four placeholder entries. -/
theorem c5_counterexample :
    renderEpisodesSection (HandleState.resolved emptyEpisodesData) ≠
      EpisodesView.noEpisodes ∧
    renderEpisodesSection (HandleState.resolved emptyEpisodesData) =
      EpisodesView.grid (List.replicate 4 placeholderEpisode) := by decide

/-- C5 (amended): when the handle resolves with an absent payload (null data,
character or episode list), the renderer shows the no-data state, which is
distinct from the failure state; but when it resolves with a present, empty
episode list, the renderer shows the placeholder grid instead. -/
theorem c5_absentEpisodesShowsNoData (data : Option EpisodesData)
    (h : deferredEpisodes data = none) :
    renderEpisodesSection (HandleState.resolved data) = EpisodesView.noEpisodes ∧
    EpisodesView.noEpisodes ≠ EpisodesView.errorMessage ∧
    renderEpisodesSection (HandleState.resolved emptyEpisodesData) =
      EpisodesView.grid (List.replicate 4 placeholderEpisode) := by
  refine ⟨?_, by decide, by decide⟩
  simp [renderEpisodesSection, h]

theorem c5_absentEpisodesShowsNoData_witness :
    renderEpisodesSection (HandleState.resolved (some ⟨none⟩)) =
      EpisodesView.noEpisodes :=
  (c5_absentEpisodesShowsNoData (some ⟨none⟩) (by decide)).1

/-- C6 counterexample: when the handle resolves with zero real episode
entries, the renderer does not show zero entries — it shows the four
placeholder entries, so "at most 4 of them for every N" fails at N = 0. -/
theorem c6_counterexample :
    renderEpisodesSection
        (HandleState.resolved (some ⟨some ⟨some ([] : List Episode)⟩⟩)) ≠
      EpisodesView.grid ([] : List Episode) ∧
    renderEpisodesSection
        (HandleState.resolved (some ⟨some ⟨some ([] : List Episode)⟩⟩)) =
      EpisodesView.grid (List.replicate 4 placeholderEpisode) := by decide

/-- C6 (amended): while the handle is pending the renderer shows exactly four
inert placeholder entries; once it resolves with N ≥ 1 real entries it shows
the first min(4, N) of them in order, silently dropping entries beyond the
cap; at N = 0 it shows the four placeholder entries again. -/
theorem c6_placeholderAndCap (eps : List Episode) (h : eps ≠ []) :
    renderEpisodesSection HandleState.pending =
      EpisodesView.grid (List.replicate 4 placeholderEpisode) ∧
    (List.replicate 4 placeholderEpisode).length = 4 ∧
    renderEpisodesSection (HandleState.resolved (some ⟨some ⟨some eps⟩⟩)) =
      EpisodesView.grid (eps.take 4) ∧
    (eps.take 4).length = min 4 eps.length ∧
    eps.take 4 <+: eps := by
  refine ⟨by decide, by decide, ?_, by simp, List.take_prefix 4 eps⟩
  have hlen : eps.length ≠ 0 := by simpa using h
  simp [renderEpisodesSection, deferredEpisodes, episodesGrid, hlen]

theorem c6_placeholderAndCap_witness :
    renderEpisodesSection
        (HandleState.resolved (some ⟨some ⟨some
          [sampleEpisode "e1", sampleEpisode "e2", sampleEpisode "e3",
           sampleEpisode "e4", sampleEpisode "e5"]⟩⟩)) =
      EpisodesView.grid
        [sampleEpisode "e1", sampleEpisode "e2", sampleEpisode "e3",
         sampleEpisode "e4"] := by
  have h := (c6_placeholderAndCap
    [sampleEpisode "e1", sampleEpisode "e2", sampleEpisode "e3",
     sampleEpisode "e4", sampleEpisode "e5"] (by decide)).2.2.1
  simpa using h

/-- C7 counterexample: with an absent route identifier the loader does not
fail early with any missing-parameter error — it still issues its three
network calls (the identifier passed through as absent) and, when the
critical fetches fulfill, it succeeds. -/
theorem c7_counterexample :
    loaderCalls ⟨none, okGateway⟩ ≠ [] ∧
    (loaderCalls ⟨none, okGateway⟩).length = 3 ∧
    (loader ⟨none, okGateway⟩).result =
      Except.ok ⟨some sampleCharacter, ⟨[sampleLocation "Earth"]⟩
        , episodesHandle ⟨none, okGateway⟩⟩ := by decide

/-- C7 (amended): the loader performs no identifier validation — with an
absent identifier it still issues the deferred episodes call and the
character call with the absent identifier in their variables plus the
locations call, and it succeeds whenever the critical fetches fulfill. -/
theorem c7_noIdentifierValidation (g : Gateway) :
    loaderCalls ⟨none, g⟩ =
      [ ⟨QueryDoc.deferredEpisodesQuery, QueryVars.withId none, CachePolicy.CacheNone⟩
      , ⟨QueryDoc.characterQuery, QueryVars.withId none, CachePolicy.CacheNone⟩
      , ⟨QueryDoc.locationsQuery, QueryVars.empty, CachePolicy.CacheNone⟩ ] ∧
    (∀ c l, g.characterResponse.result = Except.ok c →
        g.locationsResponse.result = Except.ok l →
        (loader ⟨none, g⟩).result = Except.ok ⟨c, l, episodesHandle ⟨none, g⟩⟩) := by
  refine ⟨rfl, fun c l hc hl => ?_⟩
  simp [loader, criticalJoin, promiseAll2_ok hc hl, Except.map]

theorem c7_noIdentifierValidation_witness :
    loaderCalls ⟨none, okGateway⟩ =
      [ ⟨QueryDoc.deferredEpisodesQuery, QueryVars.withId none, CachePolicy.CacheNone⟩
      , ⟨QueryDoc.characterQuery, QueryVars.withId none, CachePolicy.CacheNone⟩
      , ⟨QueryDoc.locationsQuery, QueryVars.empty, CachePolicy.CacheNone⟩ ] ∧
    (loader ⟨none, okGateway⟩).result =
      Except.ok ⟨some sampleCharacter, ⟨[sampleLocation "Earth"]⟩
        , episodesHandle ⟨none, okGateway⟩⟩ :=
  ⟨(c7_noIdentifierValidation okGateway).1
  , (c7_noIdentifierValidation okGateway).2 (some sampleCharacter)
      ⟨[sampleLocation "Earth"]⟩ rfl rfl⟩

/-- C8 counterexample: for a nonexistent character id the character query
fulfills with a null character, and the loader does not fail the critical
resolution — it succeeds, returning a critical result whose character is
null (the crash is left to the renderer dereferencing it). -/
theorem c8_counterexample :
    (loader nullCharacterArgs).result =
      Except.ok ⟨none, ⟨[]⟩, episodesHandle nullCharacterArgs⟩ := by decide

/-- C8 (amended): there is no null check on the fetched character — whenever
the character query fulfills with a null character and the locations query
fulfills, the loader succeeds and passes the null character through in the
critical result. -/
theorem c8_nullCharacterPassedThrough (args : LoaderArgs) (l : LocationsData)
    (hc : args.gateway.characterResponse.result = Except.ok none)
    (hl : args.gateway.locationsResponse.result = Except.ok l) :
    (loader args).result = Except.ok ⟨none, l, episodesHandle args⟩ := by
  simp [loader, criticalJoin, promiseAll2_ok hc hl, Except.map]

theorem c8_nullCharacterPassedThrough_witness :
    (loader nullCharacterArgs).result =
      Except.ok ⟨none, ⟨[]⟩, episodesHandle nullCharacterArgs⟩ :=
  c8_nullCharacterPassedThrough nullCharacterArgs ⟨[]⟩ rfl rfl

/-- C9 counterexample: the locations call of the character route has empty,
request-independent variables (it fetches the fixed first listing page), yet
it is issued with the no-cache policy rather than a short- or long-lived
cache. -/
theorem c9_counterexample :
    (⟨QueryDoc.locationsQuery, QueryVars.empty, CachePolicy.CacheNone⟩ : QueryCall) ∈
      loaderCalls ⟨some "2", okGateway⟩ ∧
    QueryVars.requestSpecific QueryVars.empty = false ∧
    CachePolicy.CacheNone ≠ CachePolicy.CacheShort ∧
    CachePolicy.CacheNone ≠ CachePolicy.CacheLong := by decide

/-- C9 (amended): every loader call keyed by the request-specific identifier
uses the no-cache policy, and the homepage's fixed characters listing uses the
short-lived cache; but the fixed locations listing of the character route is
also issued with the no-cache policy. -/
theorem c9_cachePolicies (args : LoaderArgs) :
    (∀ call ∈ loaderCalls args, call.vars.requestSpecific = true →
        call.cache = CachePolicy.CacheNone) ∧
    homepageLoaderCalls =
      [⟨QueryDoc.charactersQuery, QueryVars.empty, CachePolicy.CacheShort⟩] ∧
    (⟨QueryDoc.locationsQuery, QueryVars.empty, CachePolicy.CacheNone⟩ : QueryCall) ∈
      loaderCalls args := by
  refine ⟨?_, rfl, by simp [loaderCalls]⟩
  intro call hcall _
  simp [loaderCalls] at hcall
  rcases hcall with h | h | h <;> simp [h]

theorem c9_cachePolicies_witness :
    (⟨QueryDoc.characterQuery, QueryVars.withId (some "2"), CachePolicy.CacheNone⟩ :
        QueryCall).cache = CachePolicy.CacheNone ∧
    (⟨QueryDoc.locationsQuery, QueryVars.empty, CachePolicy.CacheNone⟩ : QueryCall) ∈
      loaderCalls ⟨some "2", okGateway⟩ :=
  ⟨(c9_cachePolicies ⟨some "2", okGateway⟩).1 _ (by simp [loaderCalls]) rfl
  , (c9_cachePolicies ⟨some "2", okGateway⟩).2.2⟩

/-- C10: the `Locations` component displays exactly the first six locations
of the critical result, in order — its output is a prefix of the input of
length min(6, N), and any entries after a full first six are silently
dropped. -/
theorem c10_locationsSlice (ls : List Location) :
    renderLocations ls = ls.take 6 ∧
    (renderLocations ls).length = min 6 ls.length ∧
    renderLocations ls <+: ls ∧
    (∀ heads extra : List Location, heads.length = 6 → ls = heads ++ extra →
      renderLocations ls = heads) := by
  refine ⟨rfl, by simp [renderLocations], List.take_prefix 6 ls, ?_⟩
  intro heads extra h6 hsplit
  subst hsplit
  have hmain : renderLocations (heads ++ extra) = (heads ++ extra).take heads.length := by
    simp [renderLocations, h6]
  rw [hmain, List.take_left]

theorem c10_locationsSlice_witness :
    renderLocations
        [sampleLocation "l1", sampleLocation "l2", sampleLocation "l3",
         sampleLocation "l4", sampleLocation "l5", sampleLocation "l6",
         sampleLocation "l7"] =
      [sampleLocation "l1", sampleLocation "l2", sampleLocation "l3",
       sampleLocation "l4", sampleLocation "l5", sampleLocation "l6"] :=
  (c10_locationsSlice _).2.2.2
    [sampleLocation "l1", sampleLocation "l2", sampleLocation "l3",
     sampleLocation "l4", sampleLocation "l5", sampleLocation "l6"]
    [sampleLocation "l7"] (by decide) rfl
